import Mathlib

/-!
Verification of the Sphero controller core: a shallow embedding of
`sphero_connection.py`, `openai_processor.py`, `socket_handlers.py` and
`random_movement.py`, together with theorems checking the specified
behaviour of the connection state machine, the command gateway, the
transcript interpreter, the auto-connect entry and the autonomous-motion
stop command.

Modelling conventions:
* The external spherov2 driver is an oracle `Drv` mapping each driver call
  to `none` (the call returns normally) or `some e` (the call raises an
  exception whose message is `e`).
* Every operation returns its `(success, message)` pair, the state of the
  `SpheroConnection` object after the call, and the ordered trace of
  events (driver calls, scans, sleeps) the call produced.
* Python's `json.loads` is an external library function; it is modelled as
  a parameter `loads` of the transcript pipeline.
* Durations are Python floats passed through unmodified and never
  computed with; they are modelled as exact unreduced fractions
  (`PyFloat`).  The brightness scaling `int(c * (max_brightness / 255.0))`
  is modelled bit-exactly: `pyFloatScale` reproduces the two IEEE
  binary64 roundings (the division and the multiplication, each
  round-to-nearest-even at 53 significant bits) in integer arithmetic on
  exact dyadic values, then truncates toward zero.
-/

/-- The exact value `num / den` of a Python float literal or parse
result.  Durations are only ever passed through the system, never
computed with, so the fraction is kept unreduced and equality of traces
is structural. -/
structure PyFloat where
  num : ℤ
  den : ℕ
  deriving DecidableEq, Repr

/-- A call across the driver boundary, carrying the values actually
forwarded to the driver. -/
inductive DriverCall where
  | openSession (toy : ℕ)
  | close
  | set_main_led (r g b : ℕ)
  | roll (heading speed : ℤ) (duration : PyFloat)
  | spin (degrees : ℤ) (duration : PyFloat)
  deriving DecidableEq, Repr

/-- An observable event of a run: a driver call, a device scan, or a
cooperative sleep. -/
inductive Ev where
  | call (c : DriverCall)
  | scan (timeout : ℕ)
  | sleep (seconds : PyFloat)
  deriving DecidableEq, Repr

/-- Driver behaviour oracle: `none` means the call succeeds, `some e`
means the call raises an exception with message `e`. -/
abbrev Drv := DriverCall → Option String

/-- The mutable fields of the `SpheroConnection` object
(`sphero_connection.py`, `__init__`).  The opaque toy handle is modelled
as a natural-number identifier and the opaque `SpheroEduAPI` session
object as `Option Unit`. -/
structure SpheroState where
  sphero_toy : Option ℕ := none
  sphero_api : Option Unit := none
  is_connected : Bool := false
  api_instance : Option Unit := none
  max_speed : ℕ := 30
  max_brightness : ℕ := 50
  deriving DecidableEq, Repr

/-- Result shape of a `SpheroConnection` method: the returned
`(success, message)` pair, the object state after the call, and the trace
of events produced. -/
abbrev OpResult := (Bool × String) × SpheroState × List Ev

/-- Round-to-nearest of `n / 255` (a tie is impossible because 255 is
odd): the correctly rounded scaled significand of the IEEE binary64
division `maxB / 255.0`. -/
def rndDiv255 (n : ℕ) : ℕ :=
  n / 255 + (if 255 < 2 * (n % 255) then 1 else 0)

/-- Search core for the binade of `maxB / 255`. -/
def flTAux : ℕ → ℕ → ℕ
  | 0, _ => 0
  | fuel + 1, x => if 255 ≤ x then 0 else flTAux fuel (2 * x) + 1

/-- Binade exponent of `maxB / 255` for `1 ≤ maxB ≤ 255`: the least `t`
with `255 ≤ maxB * 2 ^ t`, so that `maxB / 255 ∈ [2^(-t), 2^(1-t))`. -/
def flT (maxB : ℕ) : ℕ := flTAux 9 maxB

/-- Bit-length recursion (64 units of fuel cover every value this model
produces). -/
def bitLenAux : ℕ → ℕ → ℕ
  | 0, _ => 0
  | fuel + 1, n => if n = 0 then 0 else bitLenAux fuel (n / 2) + 1

/-- Bit length of a natural number: 0 for 0, otherwise the position of
the highest set bit plus one. -/
def bitLen (n : ℕ) : ℕ := bitLenAux 64 n

/-- Round-to-nearest-even of `n / 2 ^ s`. -/
def rndShift (n s : ℕ) : ℕ :=
  if s = 0 then n
  else
    let d := n / 2 ^ s
    let r := n % 2 ^ s
    let h := 2 ^ (s - 1)
    if h < r then d + 1
    else if r < h then d
    else if d % 2 = 0 then d else d + 1

/-- `int(c * (maxB / 255.0))` exactly as CPython evaluates it in IEEE
binary64 arithmetic, for `0 ≤ c ≤ 255` and `0 ≤ maxB ≤ 255`: the
division `maxB / 255.0` is rounded to nearest-even at 53 significant
bits (significand `m` on the binade `[2^(-t), 2^(1-t))`), the product
`c * bf` is rounded likewise, and the result is truncated toward zero.
All intermediate values are exact dyadic rationals scaled to integers.
This reproduces the double computation bit for bit; it differs from the
exact `c * maxB / 255` truncated on twelve reachable input pairs, where
the rounded product falls just below an exact integer quotient. -/
def pyFloatScale (maxB c : ℕ) : ℕ :=
  if maxB = 0 then 0
  else
    let t := flT maxB
    let m := rndDiv255 (maxB * 2 ^ (52 + t))
    let m0 := c * m
    let L := bitLen m0
    let num := if L ≤ 53 then m0 else rndShift m0 (L - 53) * 2 ^ (L - 53)
    num / 2 ^ (52 + t)

namespace Sphero

/-- `SpheroConnection.connect_to_sphero`: enter the driver session; on
success set `_api_instance`, `_sphero_api`, `_sphero_toy`,
`_is_connected`; on a driver exception clean up the partial connection. -/
def connect_to_sphero (drv : Drv) (st : SpheroState) (toy : ℕ) : OpResult :=
  match drv (DriverCall.openSession toy) with
  | some e =>
      ((false, "Connection error: " ++ e),
       { st with sphero_toy := none, api_instance := none, sphero_api := none,
                 is_connected := false },
       [Ev.call (DriverCall.openSession toy)])
  | none =>
      ((true, "Connected!"),
       { st with api_instance := some (), sphero_api := some (),
                 sphero_toy := some toy, is_connected := true },
       [Ev.call (DriverCall.openSession toy)])

/-- `SpheroConnection.disconnect_sphero`: refuse when not connected; call
`__exit__` on the session; only when that call returns normally are
`_api_instance`, `_sphero_api`, `_is_connected`, `_sphero_toy` reset (the
resets sit after the `__exit__` call inside the `try` block, so a raising
close leaves every field unchanged). -/
def disconnect_sphero (drv : Drv) (st : SpheroState) : OpResult :=
  if st.is_connected = false ∨ st.api_instance = none then
    ((false, "Not connected to any Sphero"), st, [])
  else
    match drv DriverCall.close with
    | some e =>
        ((false, "Error disconnecting: " ++ e), st, [Ev.call DriverCall.close])
    | none =>
        ((true, "Disconnected from Sphero"),
         { st with api_instance := none, sphero_api := none,
                   is_connected := false, sphero_toy := none },
         [Ev.call DriverCall.close])

/-- `SpheroConnection.set_main_led`: refuse when not connected; clamp each
channel to [0,255]; scale by the brightness factor — the Python float
computation `int(c * (max_brightness / 255.0))`, modelled bit-exactly by
`pyFloatScale` — forward to the driver; a driver exception is caught and
reported, the state is untouched. -/
def set_main_led (drv : Drv) (st : SpheroState) (r g b : ℤ) : OpResult :=
  if st.is_connected = false ∨ st.sphero_api = none then
    ((false, "Not connected to any Sphero"), st, [])
  else
    let r1 := max 0 (min 255 r)
    let g1 := max 0 (min 255 g)
    let b1 := max 0 (min 255 b)
    let r_adj := pyFloatScale st.max_brightness r1.toNat
    let g_adj := pyFloatScale st.max_brightness g1.toNat
    let b_adj := pyFloatScale st.max_brightness b1.toNat
    match drv (DriverCall.set_main_led r_adj g_adj b_adj) with
    | some e =>
        ((false, "Error setting color: " ++ e), st,
         [Ev.call (DriverCall.set_main_led r_adj g_adj b_adj)])
    | none =>
        ((true, "Color set"), st,
         [Ev.call (DriverCall.set_main_led r_adj g_adj b_adj)])

/-- `SpheroConnection.set_brightness_limit`: clamp the limit to [0,255]
and store it as the new ceiling; the surrounding try/except cannot fire
on these pure operations, so the call always succeeds. -/
def set_brightness_limit (st : SpheroState) (limit : ℤ) :
    (Bool × String) × SpheroState :=
  let l := max 0 (min 255 limit)
  ((true, "Brightness limit set"), { st with max_brightness := l.toNat })

/-- `SpheroConnection.roll`: refuse when not connected; clamp `heading` to
[0,359] and `speed` to [0, max_speed]; pass `duration` through unclamped;
forward to the driver; a driver exception is caught and reported, the
state is untouched. -/
def roll (drv : Drv) (st : SpheroState) (heading speed : ℤ) (duration : PyFloat) :
    OpResult :=
  if st.is_connected = false ∨ st.sphero_api = none then
    ((false, "Not connected to any Sphero"), st, [])
  else
    let h1 := max 0 (min 359 heading)
    let s1 := max 0 (min (st.max_speed : ℤ) speed)
    match drv (DriverCall.roll h1 s1 duration) with
    | some e =>
        ((false, "Error rolling: " ++ e), st,
         [Ev.call (DriverCall.roll h1 s1 duration)])
    | none =>
        ((true, "Rolling"), st, [Ev.call (DriverCall.roll h1 s1 duration)])

/-- `SpheroConnection.spin`: refuse when not connected; `degrees` and
`duration` are forwarded unclamped; a driver exception is caught and
reported, the state is untouched. -/
def spin (drv : Drv) (st : SpheroState) (degrees : ℤ) (duration : PyFloat) :
    OpResult :=
  if st.is_connected = false ∨ st.sphero_api = none then
    ((false, "Not connected to any Sphero"), st, [])
  else
    match drv (DriverCall.spin degrees duration) with
    | some e =>
        ((false, "Error spinning: " ++ e), st,
         [Ev.call (DriverCall.spin degrees duration)])
    | none =>
        ((true, "Spinning"), st, [Ev.call (DriverCall.spin degrees duration)])

/-- `SpheroConnection.set_heading`: refuse when not connected; clamp
`heading` to [0,359]; delegate to the driver `roll` at speed 0 with the
short fixed duration 0.1; a driver exception is caught and reported, the
state is untouched. -/
def set_heading (drv : Drv) (st : SpheroState) (heading : ℤ) : OpResult :=
  if st.is_connected = false ∨ st.sphero_api = none then
    ((false, "Not connected to any Sphero"), st, [])
  else
    let h1 := max 0 (min 359 heading)
    match drv (DriverCall.roll h1 0 ⟨1, 10⟩) with
    | some e =>
        ((false, "Error setting heading: " ++ e), st,
         [Ev.call (DriverCall.roll h1 0 ⟨1, 10⟩)])
    | none =>
        ((true, "Heading set"), st, [Ev.call (DriverCall.roll h1 0 ⟨1, 10⟩)])

end Sphero

/-- A driver oracle for which every call succeeds. -/
def drvOk : Drv := fun _ => none

/-- A driver oracle for which closing the session raises and every other
call succeeds. -/
def drvCloseFails : Drv := fun c =>
  if c = DriverCall.close then some "boom" else none

/-- The initial state of the module singleton `sphero`. -/
def sphero0 : SpheroState := {}

/-- Environment of one `attempt_auto_connect` run: what the blocking scan
returns, and the driver behaviour. -/
structure AutoEnv where
  scanResult : List ℕ
  drv : Drv

/-- `socket_handlers.SocketHandlers.attempt_auto_connect`.  The connection
lock is modelled explicitly: `lockHeld` is true when another call holds
the lock at entry.  The non-blocking `acquire(blocking=False)` then fails
and the call returns immediately with no events and no state change.
Otherwise the body runs under the lock (released in `finally`): if
already connected, return; else scan with timeout 10, and when toys were
found connect to the first one. -/
def attempt_auto_connect (env : AutoEnv) (lockHeld : Bool)
    (st : SpheroState) : SpheroState × List Ev :=
  if lockHeld then (st, [])
  else if st.is_connected then (st, [])
  else
    match env.scanResult with
    | [] => (st, [Ev.scan 10])
    | toy :: _ =>
      let r := Sphero.connect_to_sphero env.drv st toy
      (r.2.1, Ev.scan 10 :: r.2.2)

/-- The mutable fields of the `RandomMovement` singleton that
`stop_random_movement_command` touches. -/
structure RMState where
  stop_random_movement : Bool := false
  is_active : Bool := false
  deriving DecidableEq, Repr

/-- `random_movement.RandomMovement.stop_random_movement_command`: set the
stop flag, sleep 0.1 s to let the loop observe it, then — regardless of
the loop — issue `roll(0, 0, 0)` through the connection whenever the
device is connected (the connection's `roll` catches driver exceptions
itself, so the surrounding `except` branch is unreachable), and set
`_is_active = False`. -/
def stop_random_movement_command (drv : Drv) (st : SpheroState)
    (rm : RMState) : (Bool × String) × RMState × List Ev :=
  let rm1 : RMState := { rm with stop_random_movement := true }
  let evs : List Ev := [Ev.sleep ⟨1, 10⟩]
  if st.is_connected then
    let r := Sphero.roll drv st 0 0 ⟨0, 1⟩
    ((true, "Stopping random movement..."),
     { rm1 with is_active := false }, evs ++ r.2.2)
  else
    ((true, "Stopping random movement..."),
     { rm1 with is_active := false }, evs)

/-- A connected state with the default ceilings, as produced by a
successful connect from the initial state. -/
def stConn : SpheroState :=
  (Sphero.connect_to_sphero drvOk sphero0 7).2.1

/-- The freshly connected state after raising the brightness ceiling to
147 through `set_brightness_limit`. -/
def stConn147 : SpheroState := (Sphero.set_brightness_limit stConn 147).2

/-- Recursion core of `split_json_objects`
(`openai_processor.split_json_objects`): walk the indexed characters
tracking the brace depth and the start index of the current candidate
object; a substring is emitted each time the depth returns to zero on a
closing brace. -/
def sjo_go (text : List Char) : List (ℕ × Char) → ℤ → ℕ → List (List Char)
  | [], _, _ => []
  | (i, c) :: rest, depth, start =>
    if c = '{' then
      sjo_go text rest (depth + 1) (if depth = 0 then i else start)
    else if c = '}' then
      if depth - 1 = 0 then
        ((text.drop start).take (i + 1 - start)) ::
          sjo_go text rest (depth - 1) start
      else sjo_go text rest (depth - 1) start
    else sjo_go text rest depth start

/-- `openai_processor.split_json_objects`: extract the balanced
top-level brace-delimited substrings; text outside every balanced pair —
including an unbalanced trailing fragment — is dropped. -/
def split_json_objects (text : List Char) : List (List Char) :=
  sjo_go text text.enum 0 0

/-- Numeric value of a digit string. -/
def digitsToNat (l : List Char) : ℕ :=
  l.foldl (fun a c => a * 10 + (c.toNat - 48)) 0

/-- Python's `int(s)` on a decimal string: succeeds exactly on optionally
signed digit strings, raises `ValueError` otherwise. -/
def pyInt (s : String) : Except String ℤ :=
  let l := s.toList
  let sl : ℤ × List Char :=
    match l with
    | '-' :: r => (-1, r)
    | '+' :: r => (1, r)
    | _ => (1, l)
  if !sl.2.isEmpty && sl.2.all Char.isDigit then
    Except.ok (sl.1 * digitsToNat sl.2)
  else Except.error ("invalid literal for int(): " ++ s)

/-- Python's `float(s)` on the decimal forms the transcripts use
(optional sign, digits, optional fractional part), returning the exact
value; raises `ValueError` otherwise. -/
def pyFloat (s : String) : Except String PyFloat :=
  let l := s.toList
  let sl : ℤ × List Char :=
    match l with
    | '-' :: r => (-1, r)
    | '+' :: r => (1, r)
    | _ => (1, l)
  match sl.2.splitOn '.' with
  | [ip] =>
      if !ip.isEmpty && ip.all Char.isDigit then
        Except.ok ⟨sl.1 * digitsToNat ip, 1⟩
      else Except.error ("could not convert string to float: " ++ s)
  | [ip, fp] =>
      if (!ip.isEmpty || !fp.isEmpty) && ip.all Char.isDigit &&
          fp.all Char.isDigit then
        Except.ok
          ⟨sl.1 * (digitsToNat ip * 10 ^ fp.length + digitsToNat fp),
           10 ^ fp.length⟩
      else Except.error ("could not convert string to float: " ++ s)
  | _ => Except.error ("could not convert string to float: " ++ s)

/-- Match a literal character sequence at the head of the input,
returning the rest. -/
def takeLit : List Char → List Char → Option (List Char)
  | [], r => some r
  | _ :: _, [] => none
  | a :: as, b :: bs => if a = b then takeLit as bs else none

/-- Consume one or more digits at the head of the input. -/
def takeDigits1 (l : List Char) : Option (ℕ × List Char) :=
  let d := l.takeWhile Char.isDigit
  if d.isEmpty then none else some (digitsToNat d, l.dropWhile Char.isDigit)

/-- Match the regular expression `Color\(r=(\d+),\s*g=(\d+),\s*b=(\d+)\)`
at the head of the input. -/
def matchColorAt (l : List Char) : Option (ℕ × ℕ × ℕ) := do
  let r1 ← takeLit "Color(r=".toList l
  let (n1, r2) ← takeDigits1 r1
  let r3 ← takeLit [','] r2
  let r5 ← takeLit "g=".toList (r3.dropWhile Char.isWhitespace)
  let (n2, r6) ← takeDigits1 r5
  let r7 ← takeLit [','] r6
  let r9 ← takeLit "b=".toList (r7.dropWhile Char.isWhitespace)
  let (n3, r10) ← takeDigits1 r9
  let _ ← takeLit [')'] r10
  some (n1, n2, n3)

/-- `re.search` for the color pattern
(`openai_processor.process_set_color_command`): first match anywhere in
the string, or `none`. -/
def findColor : List Char → Option (ℕ × ℕ × ℕ)
  | [] => none
  | c :: rest =>
    match matchColorAt (c :: rest) with
    | some v => some v
    | none => findColor rest

/-- One decoded command object `{command, parameters}`; `command` is
absent when the JSON object has no such key, and parameter values are the
strings fed to `int()`/`float()`. -/
structure CommandJson where
  command : Option String := none
  parameters : List (String × String) := []
  deriving DecidableEq, Repr

/-- One decoded command set: the `commands` sequence of a top-level
object (`command_data.get` yields `[]` when the key is missing). -/
structure CommandData where
  commands : List CommandJson := []
  deriving DecidableEq, Repr

/-- Model of Python's `json.loads` (an external library function): either
a decoded command set or a `JSONDecodeError` message. -/
abbrev Loads := List Char → Except String CommandData

/-- `dict.get(k, d)` on the parameters mapping. -/
def dictGetD (ps : List (String × String)) (k d : String) : String :=
  match ps.find? (fun p => p.1 == k) with
  | some p => p.2
  | none => d

/-- `openai_processor.process_command`: dispatch one command through the
`SpheroConnection` singleton.  `int()`/`float()` conversion failures
propagate as exceptions (`Except.error`); unrecognized or missing command
names fall through silently.  The value returned is the trace of events
the dispatch produced. -/
def process_command (drv : Drv) (st : SpheroState) (cmd : CommandJson) :
    Except String (List Ev) :=
  if cmd.command = some "set_main_led" then
    match findColor (dictGetD cmd.parameters "param1" "").toList with
    | some (r, g, b) => Except.ok (Sphero.set_main_led drv st r g b).2.2
    | none => Except.ok []
  else if cmd.command = some "roll" then do
    let heading := dictGetD cmd.parameters "param1" "0"
    let speed := dictGetD cmd.parameters "param2" "0"
    let duration := dictGetD cmd.parameters "param3" "1.0"
    let h ← pyInt heading
    let s ← pyInt speed
    let d ← if duration = "" then Except.ok ⟨1, 1⟩ else pyFloat duration
    Except.ok (Sphero.roll drv st h s d).2.2
  else if cmd.command = some "spin" then do
    let degrees := dictGetD cmd.parameters "param1" "0"
    let duration := dictGetD cmd.parameters "param2" "1.0"
    let dg ← pyInt degrees
    let d ← if duration = "" then Except.ok ⟨1, 1⟩ else pyFloat duration
    Except.ok (Sphero.spin drv st dg d).2.2
  else if cmd.command = some "set_heading" then do
    let h ← pyInt (dictGetD cmd.parameters "param1" "0")
    Except.ok (Sphero.set_heading drv st h).2.2
  else Except.ok []

/-- The inner loop of `process_transcript` over the commands of one
decoded set: dispatch in order; the first conversion failure aborts,
keeping the events already produced. -/
def run_commands (drv : Drv) (st : SpheroState) :
    List CommandJson → Except (String × List Ev) (List Ev)
  | [] => Except.ok []
  | c :: cs =>
    match process_command drv st c with
    | Except.error e => Except.error ("Error processing commands: " ++ e, [])
    | Except.ok evs =>
      match run_commands drv st cs with
      | Except.error p => Except.error (p.1, evs ++ p.2)
      | Except.ok evs2 => Except.ok (evs ++ evs2)

/-- Processing of one candidate object inside `process_transcript`:
`json.loads` it (a `JSONDecodeError` becomes the parse-error message) and
run its commands. -/
def runSet (loads : Loads) (drv : Drv) (st : SpheroState) (s : List Char) :
    Except (String × List Ev) (List Ev) :=
  match loads s with
  | Except.error e => Except.error ("Error parsing command data: " ++ e, [])
  | Except.ok data => run_commands drv st data.commands

/-- The outer loop of `process_transcript` over the split candidate
objects: the first failure aborts the whole batch, keeping the events
already produced by earlier objects. -/
def run_sets (loads : Loads) (drv : Drv) (st : SpheroState) :
    List (List Char) → Except (String × List Ev) (List Ev)
  | [] => Except.ok []
  | s :: ss =>
    match runSet loads drv st s with
    | Except.error p => Except.error p
    | Except.ok evs =>
      match run_sets loads drv st ss with
      | Except.error p => Except.error (p.1, evs ++ p.2)
      | Except.ok evs2 => Except.ok (evs ++ evs2)

/-- `openai_processor.process_transcript`: empty transcripts short-circuit
to success with no message; a disconnected device yields a single
explanatory failure before any parsing; otherwise the brace-delimited
objects are split, decoded and dispatched in order, and the first
`JSONDecodeError` or command-processing exception turns the result into a
failure message while the events already dispatched remain. -/
def process_transcript (loads : Loads) (drv : Drv) (st : SpheroState)
    (t : List Char) : (Bool × Option String) × List Ev :=
  if t = [] then ((true, none), [])
  else if st.is_connected = false then
    ((false, some "Livvy wants to move, but Sphero is not connected."), [])
  else
    match run_sets loads drv st (split_json_objects t) with
    | Except.ok evs => ((true, some "Livvy executed the commands!"), evs)
    | Except.error p => ((false, some p.1), p.2)

/-- A driver oracle for which every command raises. -/
def drvRaise : Drv := fun _ => some "boom"

/-- A `json.loads` stand-in that rejects every input. -/
def loadsErr : Loads := fun _ =>
  Except.error "Expecting value: line 1 column 1 (char 0)"

/-- The spec's formula for the channel value `setColor` forwards:
clamp the channel to [0,255] first, then scale by `maxBrightness / 255`,
truncated to an integer. -/
def specColorChannel (maxB : ℕ) (c : ℤ) : ℕ :=
  (max 0 (min 255 c)).toNat * maxB / 255

/-- A `json.loads` stand-in that decodes the object `{A}` to a single
roll command and rejects everything else with a decode error. -/
def loadsDemo : Loads := fun s =>
  if s = "\x7bA\x7d".toList then
    Except.ok ⟨[⟨some "roll",
      [("param1", "10"), ("param2", "50"), ("param3", "1.0")]⟩]⟩
  else Except.error "Expecting value: line 1 column 1 (char 0)"

/-- C1 (counterexample): starting from the state produced by a successful
connect, a disconnect whose driver close raises reports failure and
leaves the state still connected with the session reference present —
the claim that the state is reset to disconnected and cleared regardless
of a close failure is false. -/
theorem C1_counterexample :
    (Sphero.disconnect_sphero drvCloseFails stConn).1.1 = false ∧
    (Sphero.disconnect_sphero drvCloseFails stConn).2.1.is_connected = true ∧
    (Sphero.disconnect_sphero drvCloseFails stConn).2.1.sphero_api =
      some () := by
  decide

/-- C1 (amended): after a successful connect, disconnect closes the
driver session; if the close returns normally the state is reset to
disconnected with `session`/`deviceHandle` cleared, but if the close
raises, disconnect returns a failure and the state is left entirely
unchanged — still connected, session and handle retained. -/
theorem C1_theorem (drv : Drv) (st : SpheroState) (toy : ℕ)
    (hopen : drv (DriverCall.openSession toy) = none) :
    (drv DriverCall.close = none →
      Sphero.disconnect_sphero drv (Sphero.connect_to_sphero drv st toy).2.1 =
        ((true, "Disconnected from Sphero"),
         { st with api_instance := none, sphero_api := none,
                   is_connected := false, sphero_toy := none },
         [Ev.call DriverCall.close])) ∧
    (∀ e, drv DriverCall.close = some e →
      Sphero.disconnect_sphero drv (Sphero.connect_to_sphero drv st toy).2.1 =
        ((false, "Error disconnecting: " ++ e),
         (Sphero.connect_to_sphero drv st toy).2.1,
         [Ev.call DriverCall.close])) := by
  constructor
  · intro hclose
    simp [Sphero.connect_to_sphero, hopen, Sphero.disconnect_sphero, hclose]
  · intro e hclose
    simp [Sphero.connect_to_sphero, hopen, Sphero.disconnect_sphero, hclose]

/-- C1 (witness): the amended theorem at the initial state, toy 7 and a
driver whose close raises with message "boom". -/
theorem C1_witness :
    Sphero.disconnect_sphero drvCloseFails stConn =
      ((false, "Error disconnecting: " ++ "boom"), stConn,
       [Ev.call DriverCall.close]) :=
  (C1_theorem drvCloseFails sphero0 7 rfl).2 "boom" rfl

/-- C2 (counterexample): at the connected state with the reachable
brightness ceiling 147 (set through `set_brightness_limit`), channel 85
is forwarded as 48 — the IEEE binary64 product `85 * (147 / 255.0)` is
`48.99999999999999`, truncated to 48 — while the claim's exact formula
`clamp(85) * 147 / 255` truncated gives 49 (85·147 = 12495 = 49·255
exactly).  The claim's formula is therefore violated by the code. -/
theorem C2_counterexample :
    (Sphero.set_main_led drvOk stConn147 85 85 85).2.2 =
      [Ev.call (DriverCall.set_main_led 48 48 48)] ∧
    specColorChannel 147 85 = 49 := by
  decide

/-- C2 (amended): when connected, `set_main_led` first clamps each
integer channel to [0,255] — also for out-of-range inputs — and then
scales the clamped channel by the brightness factor in IEEE binary64
arithmetic, forwarding `int(clamp(c) * (maxBrightness / 255.0))` as
computed with both roundings (`pyFloatScale`); this agrees with
`clamp(c) * maxBrightness / 255` truncated except on the twelve channel/
ceiling pairs where the rounded product falls just below an exact
integer quotient and the forwarded value is one less. -/
theorem C2_theorem (drv : Drv) (st : SpheroState) (r g b : ℤ)
    (hc : st.is_connected = true) (ha : st.sphero_api = some ()) :
    (Sphero.set_main_led drv st r g b).2.2 =
      [Ev.call (DriverCall.set_main_led
        (pyFloatScale st.max_brightness (max 0 (min 255 r)).toNat)
        (pyFloatScale st.max_brightness (max 0 (min 255 g)).toNat)
        (pyFloatScale st.max_brightness (max 0 (min 255 b)).toNat))] := by
  have hg : ¬(st.is_connected = false ∨ st.sphero_api = none) := by
    simp [hc, ha]
  unfold Sphero.set_main_led
  rw [if_neg hg]
  cases hdrv : drv (DriverCall.set_main_led
      (pyFloatScale st.max_brightness (max 0 (min 255 r)).toNat)
      (pyFloatScale st.max_brightness (max 0 (min 255 g)).toNat)
      (pyFloatScale st.max_brightness (max 0 (min 255 b)).toNat)) <;>
    simp [hdrv]

/-- C2 (witness): at the connected state with ceiling 147, channel 300
is clamped to 255 and scaled to exactly 147, channel -5 is clamped to 0,
and channel 85 is scaled to 48 (the one-below-exact case). -/
theorem C2_witness :
    (Sphero.set_main_led drvOk stConn147 300 (-5) 85).2.2 =
      [Ev.call (DriverCall.set_main_led 147 0 48)] :=
  C2_theorem drvOk stConn147 300 (-5) 85 rfl rfl

/-- C3: when connected, `roll` forwards the heading clamped to [0,359]
and the speed clamped to [0, max_speed] while the duration is passed
through unchanged; every forwarded roll stays inside those bounds
(negative speeds become 0, never a reversal). -/
theorem C3_theorem (drv : Drv) (st : SpheroState) (heading speed : ℤ)
    (duration : PyFloat)
    (hc : st.is_connected = true) (ha : st.sphero_api = some ()) :
    (Sphero.roll drv st heading speed duration).2.2 =
      [Ev.call (DriverCall.roll (max 0 (min 359 heading))
        (max 0 (min (st.max_speed : ℤ) speed)) duration)] ∧
    ∀ h s d, Ev.call (DriverCall.roll h s d) ∈
        (Sphero.roll drv st heading speed duration).2.2 →
      0 ≤ h ∧ h ≤ 359 ∧ 0 ≤ s ∧ s ≤ (st.max_speed : ℤ) ∧ d = duration := by
  have hg : ¬(st.is_connected = false ∨ st.sphero_api = none) := by
    simp [hc, ha]
  have htr : (Sphero.roll drv st heading speed duration).2.2 =
      [Ev.call (DriverCall.roll (max 0 (min 359 heading))
        (max 0 (min (st.max_speed : ℤ) speed)) duration)] := by
    unfold Sphero.roll
    rw [if_neg hg]
    cases hdrv : drv (DriverCall.roll (max 0 (min 359 heading))
        (max 0 (min (st.max_speed : ℤ) speed)) duration) <;> simp [hdrv]
  refine ⟨htr, ?_⟩
  intro h s d hmem
  rw [htr] at hmem
  simp only [List.mem_singleton, Ev.call.injEq, DriverCall.roll.injEq] at hmem
  obtain ⟨hh, hs, hd⟩ := hmem
  subst hh hs hd
  refine ⟨?_, ?_, ?_, ?_, rfl⟩ <;> omega

/-- C3 (witness): at the freshly connected state (max_speed 30), heading
400 is clamped to 359 and speed -7 to 0, duration 2.0 passed through. -/
theorem C3_witness :
    (Sphero.roll drvOk stConn 400 (-7) ⟨2, 1⟩).2.2 =
      [Ev.call (DriverCall.roll 359 0 ⟨2, 1⟩)] :=
  (C3_theorem drvOk stConn 400 (-7) ⟨2, 1⟩ rfl rfl).1

/-- C7: while connected, no command operation changes the connection
state, whatever the driver does — including raising: the state after
`set_main_led`, `roll`, `spin` and `set_heading` is exactly the state
before, so `connected` stays true and `session`/`deviceHandle` are
untouched. -/
theorem C7_theorem (drv : Drv) (st : SpheroState)
    (hc : st.is_connected = true) :
    (∀ r g b, (Sphero.set_main_led drv st r g b).2.1 = st) ∧
    (∀ heading speed d, (Sphero.roll drv st heading speed d).2.1 = st) ∧
    (∀ dg d, (Sphero.spin drv st dg d).2.1 = st) ∧
    (∀ h, (Sphero.set_heading drv st h).2.1 = st) := by
  refine ⟨fun r g b => ?_, fun heading speed d => ?_, fun dg d => ?_,
    fun h => ?_⟩
  · unfold Sphero.set_main_led
    split
    · rfl
    · dsimp only
      split <;> rfl
  · unfold Sphero.roll
    split
    · rfl
    · dsimp only
      split <;> rfl
  · unfold Sphero.spin
    split
    · rfl
    · split <;> rfl
  · unfold Sphero.set_heading
    split
    · rfl
    · dsimp only
      split <;> rfl

/-- C7 (witness): at the freshly connected state with a driver that
raises on every command, a roll leaves the state exactly as it was. -/
theorem C7_witness :
    (Sphero.roll drvRaise stConn 10 20 ⟨1, 1⟩).2.1 = stConn :=
  (C7_theorem drvRaise stConn rfl).2.1 10 20 ⟨1, 1⟩

/-- C6: while disconnected, no command operation forwards anything to the
driver — `set_main_led`, `roll`, `spin` and `set_heading` each return the
"Not connected to any Sphero" failure with an empty event trace and an
unchanged state — and `process_transcript` dispatches nothing either: its
trace is always empty, and for every non-empty transcript it returns the
single explanatory message (the empty transcript short-circuits to
success with no message, per the success-with-no-op contract). -/
theorem C6_theorem (st : SpheroState) (hnc : st.is_connected = false) :
    (∀ drv r g b, Sphero.set_main_led drv st r g b =
      ((false, "Not connected to any Sphero"), st, [])) ∧
    (∀ drv heading speed d, Sphero.roll drv st heading speed d =
      ((false, "Not connected to any Sphero"), st, [])) ∧
    (∀ drv dg d, Sphero.spin drv st dg d =
      ((false, "Not connected to any Sphero"), st, [])) ∧
    (∀ drv h, Sphero.set_heading drv st h =
      ((false, "Not connected to any Sphero"), st, [])) ∧
    (∀ loads drv t, (process_transcript loads drv st t).2 = [] ∧
      (t ≠ [] → process_transcript loads drv st t =
        ((false, some "Livvy wants to move, but Sphero is not connected."),
         []))) := by
  refine ⟨fun drv r g b => ?_, fun drv heading speed d => ?_,
    fun drv dg d => ?_, fun drv h => ?_, fun loads drv t => ?_⟩
  · simp [Sphero.set_main_led, hnc]
  · simp [Sphero.roll, hnc]
  · simp [Sphero.spin, hnc]
  · simp [Sphero.set_heading, hnc]
  · by_cases ht : t = [] <;> simp [process_transcript, hnc, ht]

/-- C6 (witness): at the initial (disconnected) state, a roll returns the
failure without touching the driver, and a non-empty transcript yields
the single explanatory message with no dispatch. -/
theorem C6_witness :
    Sphero.roll drvOk sphero0 90 200 ⟨1, 1⟩ =
      ((false, "Not connected to any Sphero"), sphero0, []) ∧
    process_transcript loadsErr drvOk sphero0 "hello".toList =
      ((false, some "Livvy wants to move, but Sphero is not connected."),
       []) :=
  ⟨(C6_theorem sphero0 rfl).2.1 drvOk 90 200 ⟨1, 1⟩,
   ((C6_theorem sphero0 rfl).2.2.2.2 loadsErr drvOk "hello".toList).2
     (by decide)⟩

/-- C8: with the connection lock modelled explicitly, of two concurrent
`attempt_auto_connect` invocations exactly one performs the scan/connect
sequence: an invocation entered while the lock is held (its non-blocking
acquire fails) returns immediately as a no-op — unchanged state, no scan,
no driver call — while the invocation that acquired the free lock on a
disconnected system starts with the device scan. -/
theorem C8_theorem (env : AutoEnv) (st : SpheroState)
    (hnc : st.is_connected = false) :
    attempt_auto_connect env true st = (st, []) ∧
    (attempt_auto_connect env false st).2.head? = some (Ev.scan 10) := by
  constructor
  · simp [attempt_auto_connect]
  · cases hs : env.scanResult <;> simp [attempt_auto_connect, hnc, hs]

/-- C8 (witness): with an empty scan result and the initial state, the
lock-held invocation no-ops and the lock-free invocation scans. -/
theorem C8_witness :
    attempt_auto_connect ⟨[], drvOk⟩ true sphero0 = (sphero0, []) ∧
    (attempt_auto_connect ⟨[], drvOk⟩ false sphero0).2.head? =
      some (Ev.scan 10) :=
  C8_theorem ⟨[], drvOk⟩ sphero0 rfl

/-- C9: in every state of the autonomous-motion controller,
`stop_random_movement_command` sets the stop flag, sleeps the bounded
0.1 s, sets `is_active` to false unconditionally and reports success; and
whenever the device is connected (with its session present, the invariant
every reachable connection state satisfies) it issues the
`roll(0,0,0)`-equivalent stop command through the connection — also when
the loop flags say the loop already exited on its own. -/
theorem C9_theorem (drv : Drv) (st : SpheroState) (rm : RMState)
    (hinv : st.is_connected = true → st.sphero_api = some ()) :
    (stop_random_movement_command drv st rm).2.1.stop_random_movement =
      true ∧
    (stop_random_movement_command drv st rm).2.1.is_active = false ∧
    (stop_random_movement_command drv st rm).1.1 = true ∧
    (stop_random_movement_command drv st rm).2.2.head? =
      some (Ev.sleep ⟨1, 10⟩) ∧
    (st.is_connected = true →
      (stop_random_movement_command drv st rm).2.2 =
        [Ev.sleep ⟨1, 10⟩, Ev.call (DriverCall.roll 0 0 ⟨0, 1⟩)]) ∧
    (st.is_connected = false →
      (stop_random_movement_command drv st rm).2.2 = [Ev.sleep ⟨1, 10⟩]) := by
  by_cases hc : st.is_connected = true
  · have ha := hinv hc
    have hg : ¬(st.is_connected = false ∨ st.sphero_api = none) := by
      simp [hc, ha]
    have hroll : (Sphero.roll drv st 0 0 ⟨0, 1⟩).2.2 =
        [Ev.call (DriverCall.roll 0 0 ⟨0, 1⟩)] := by
      unfold Sphero.roll
      rw [if_neg hg]
      have h1 : max 0 (min 359 (0 : ℤ)) = 0 := by omega
      have h2 : max 0 (min (st.max_speed : ℤ) 0) = 0 := by omega
      rw [h1, h2]
      cases hdrv : drv (DriverCall.roll 0 0 ⟨0, 1⟩) <;> simp [hdrv]
    refine ⟨?_, ?_, ?_, ?_, fun _ => ?_, fun hf => ?_⟩ <;>
      simp [stop_random_movement_command, hc, hroll] at *
  · have hf : st.is_connected = false := by
      cases h : st.is_connected
      · rfl
      · exact absurd h hc
    refine ⟨?_, ?_, ?_, ?_, fun hct => absurd hct hc, fun _ => ?_⟩ <;>
      simp [stop_random_movement_command, hf]

/-- C9 (witness): at the freshly connected state with the loop marked
already inactive, stop sets the flag, clears activity and still issues
the `roll(0,0,0)` stop command after the bounded sleep. -/
theorem C9_witness :
    (stop_random_movement_command drvOk stConn ⟨false, false⟩).2.1 =
      ⟨true, false⟩ ∧
    (stop_random_movement_command drvOk stConn ⟨false, false⟩).2.2 =
      [Ev.sleep ⟨1, 10⟩, Ev.call (DriverCall.roll 0 0 ⟨0, 1⟩)] := by
  have h := C9_theorem drvOk stConn ⟨false, false⟩ (fun _ => rfl)
  exact ⟨by
    have h1 := h.1
    have h2 := h.2.1
    cases hrm : (stop_random_movement_command drvOk stConn
        ⟨false, false⟩).2.1
    simp [hrm] at h1 h2
    simp [h1, h2], h.2.2.2.2.1 rfl⟩

/-- If the leading objects process cleanly and the next one fails, the
whole batch fails with the failing object's message while keeping the
events already dispatched. -/
theorem run_sets_error_of_prefix (loads : Loads) (drv : Drv)
    (st : SpheroState) (pre : List (List Char)) (bad : List Char)
    (rest : List (List Char)) (evs : List Ev) (msg : String)
    (evbad : List Ev)
    (hpre : run_sets loads drv st pre = Except.ok evs)
    (hbad : runSet loads drv st bad = Except.error (msg, evbad)) :
    run_sets loads drv st (pre ++ bad :: rest) =
      Except.error (msg, evs ++ evbad) := by
  induction pre generalizing evs with
  | nil =>
    simp [run_sets] at hpre
    subst hpre
    simp [run_sets, hbad]
  | cons s ss ih =>
    rw [List.cons_append]
    cases hs : runSet loads drv st s with
    | error p =>
      rw [run_sets, hs] at hpre
      exact absurd hpre (by simp)
    | ok e1 =>
      cases hss : run_sets loads drv st ss with
      | error p =>
        rw [run_sets, hs, hss] at hpre
        exact absurd hpre (by simp)
      | ok e2 =>
        rw [run_sets, hs, hss] at hpre
        have hevs : evs = e1 ++ e2 := by
          cases hpre
          rfl
        subst hevs
        rw [run_sets, hs, ih e2 hss]
        simp

/-- C4 (counterexample): while connected, the flat semicolon-separated
input "roll(10, 50, 1.0); spin(90, 2.0)" produces an empty dispatch trace
and a success message — no roll and no spin command is dispatched, so the
claim that exactly one of each is dispatched is false. -/
theorem C4_counterexample :
    process_transcript loadsErr drvOk stConn
        "roll(10, 50, 1.0); spin(90, 2.0)".toList =
      ((true, some "Livvy executed the commands!"), []) := by
  rfl

/-- C4 (amended): the interpreter recognizes only brace-delimited JSON
objects; given the flat semicolon-separated function-call input
"roll(10, 50, 1.0); spin(90, 2.0)" while connected, it dispatches no
command at all — the splitter finds no balanced object — and returns
success, for every decoder and driver. -/
theorem C4_theorem (loads : Loads) (drv : Drv) (st : SpheroState)
    (hc : st.is_connected = true) :
    process_transcript loads drv st
        "roll(10, 50, 1.0); spin(90, 2.0)".toList =
      ((true, some "Livvy executed the commands!"), []) := by
  have hsplit :
      split_json_objects "roll(10, 50, 1.0); spin(90, 2.0)".toList = [] := by
    decide
  have ht : "roll(10, 50, 1.0); spin(90, 2.0)".toList ≠ [] := by decide
  simp [process_transcript, hc, ht, hsplit, run_sets]

/-- C4 (witness): the amended theorem at the freshly connected state with
the demo decoder. -/
theorem C4_witness :
    process_transcript loadsDemo drvOk stConn
        "roll(10, 50, 1.0); spin(90, 2.0)".toList =
      ((true, some "Livvy executed the commands!"), []) :=
  C4_theorem loadsDemo drvOk stConn rfl

/-- C5 (counterexample): while connected, the unbalanced-brace transcript
`{"commands": [` is processed without crash and executes nothing, but the
result is the success message, not a parse-level failure — even with a
decoder that rejects every input, because the splitter silently drops the
unbalanced fragment and the decoder is never consulted.  The claim that a
parse-level failure is reported is false. -/
theorem C5_counterexample :
    process_transcript loadsErr drvOk stConn
        "\x7b\"commands\": [".toList =
      ((true, some "Livvy executed the commands!"), []) := by
  rfl

/-- C5 (amended): a transcript whose brace-delimited content is malformed
by unbalanced braces (no complete top-level object survives the splitter)
is processed without crash and without executing any command, and the
interpreter reports success — not a parse-level failure; decode failures
are only ever reported for brace-balanced objects. -/
theorem C5_theorem (loads : Loads) (drv : Drv) (st : SpheroState)
    (t : List Char) (hc : st.is_connected = true) (ht : t ≠ [])
    (hsplit : split_json_objects t = []) :
    process_transcript loads drv st t =
      ((true, some "Livvy executed the commands!"), []) := by
  simp [process_transcript, hc, ht, hsplit, run_sets]

/-- C5 (witness): the amended theorem at the freshly connected state on
the unbalanced input `{oops`. -/
theorem C5_witness :
    process_transcript loadsErr drvOk stConn "\x7boops".toList =
      ((true, some "Livvy executed the commands!"), []) :=
  C5_theorem loadsErr drvOk stConn "\x7boops".toList rfl (by decide)
    (by decide)

/-- C10: transcript batch execution is not atomic: while connected, if
the split objects are `pre ++ bad :: rest` where every object of `pre`
processes cleanly (dispatching `evs`) and `bad` fails — its JSON decode
fails or one of its commands carries a parameter on which `int()`/
`float()` raises (after dispatching `evbad`) — then `process_transcript`
returns a failure message and the final trace is exactly `evs ++ evbad`:
everything dispatched before the failure stays executed and is not
undone, and nothing after the failure runs. -/
theorem C10_theorem (loads : Loads) (drv : Drv) (st : SpheroState)
    (t : List Char) (pre : List (List Char)) (bad : List Char)
    (rest : List (List Char)) (evs : List Ev) (msg : String)
    (evbad : List Ev)
    (hc : st.is_connected = true) (ht : t ≠ [])
    (hsplit : split_json_objects t = pre ++ bad :: rest)
    (hpre : run_sets loads drv st pre = Except.ok evs)
    (hbad : runSet loads drv st bad = Except.error (msg, evbad)) :
    process_transcript loads drv st t = ((false, some msg), evs ++ evbad) := by
  have herr := run_sets_error_of_prefix loads drv st pre bad rest evs msg
    evbad hpre hbad
  simp [process_transcript, hc, ht, hsplit, herr]

/-- C10 (witness): on the transcript `{A}{B}` with the demo decoder, the
roll of `{A}` is dispatched (speed 50 clamped to the ceiling 30), then
the decode of `{B}` fails; the result is the parse failure message and
the trace still contains the already-executed roll. -/
theorem C10_witness :
    process_transcript loadsDemo drvOk stConn "\x7bA\x7d\x7bB\x7d".toList =
      ((false, some ("Error parsing command data: " ++
          "Expecting value: line 1 column 1 (char 0)")),
       [Ev.call (DriverCall.roll 10 30 ⟨10, 10⟩)]) :=
  C10_theorem loadsDemo drvOk stConn "\x7bA\x7d\x7bB\x7d".toList
    ["\x7bA\x7d".toList] "\x7bB\x7d".toList []
    [Ev.call (DriverCall.roll 10 30 ⟨10, 10⟩)]
    ("Error parsing command data: " ++
      "Expecting value: line 1 column 1 (char 0)") []
    rfl (by decide) (by decide) rfl rfl
